import Mathlib

/-
Shallow embedding of the entity-consistency core of the team/board/task
management service (modules `concrete/teams.py`, `concrete/board.py`,
`concrete/user.py`, `utils/validators.py`, `utils/exceptions.py`).

Modelling conventions:
* Each persisted JSON collection (`users`, `teams`, `boards`, `tasks`) is a
  Lean list of records; an operation takes the loaded collections plus the
  parsed request payload and returns `Except PyErr newState`.
* A Python exception raised by an operation is modelled as `.error e`.  In the
  source every `raise` happens before the final `save_json`/`_save_users`
  call, so an exception always leaves the persisted collection untouched;
  accordingly an `.error` result carries no successor state and the stored
  state is the unchanged input state.
* Nondeterministic effects (`uuid.uuid4()`, `datetime.now().isoformat()`) are
  passed in as explicit `newId` / `now` arguments.
* Python `str.strip()` is modelled by `pyStrip`; Python truthiness of an
  optional string (`if not x:`) by `pyTruthy`; Python `set` values by
  deduplicated lists (`List.dedup`), whose membership and cardinality agree
  with the source's sets (set iteration order is arbitrary in Python anyway).
-/

/-- The Python exception classes raised by the modelled operations:
`ValueError` (builtin, used throughout `teams.py` and `board.py`) and the
custom classes `ValidationError`, `ResourceNotFoundError`,
`DuplicateResourceError` from `utils/exceptions.py` (used by `user.py`). -/
inductive PyErr where
  | valueError (msg : String)
  | validationError (msg : String)
  | resourceNotFoundError (msg : String)
  | duplicateResourceError (msg : String)
deriving DecidableEq, Repr

/-- Is the result a raised `DuplicateResourceError`? -/
def isDuplicateResourceError {α : Type} : Except PyErr α → Bool
  | .error (.duplicateResourceError _) => true
  | _ => false

/-- Python truthiness of an optional string: `None` and `""` are falsy. -/
def pyTruthy : Option String → Option String
  | none => none
  | some s => if s = "" then none else some s

/-- Python `str.strip()`: drop leading and trailing whitespace.  Implemented
structurally on the character list so that it is kernel-computable (the
library trim function of Lean is defined through substring primitives that do
not reduce definitionally). -/
def pyStrip (s : String) : String :=
  ⟨((s.data.dropWhile Char.isWhitespace).reverse.dropWhile Char.isWhitespace).reverse⟩

/-- Replace the first element satisfying `p` by its image under `f`
(models a mutation of `xs[index]` where `index` is the first match,
as computed by Python `next((i for i, x ...))`). -/
def modifyFirst {α : Type} (p : α → Bool) (f : α → α) : List α → List α
  | [] => []
  | x :: xs => if p x then f x :: xs else x :: modifyFirst p f xs

/-- A record of `db/users.json`. -/
structure UserRec where
  id : String
  name : String
  display_name : String
  creation_time : String
deriving DecidableEq, Repr

/-- A record of `db/teams.json`. -/
structure Team where
  id : String
  name : String
  description : String
  admin : String
  members : List String
  creation_time : String
deriving DecidableEq, Repr

/-- A record of `db/boards.json`. -/
structure Board where
  id : String
  name : String
  description : String
  team_id : String
  creation_time : String
  status : String
  end_time : Option String
deriving DecidableEq, Repr

/-- A record of `db/tasks.json`. -/
structure TaskRec where
  id : String
  title : String
  description : String
  user_id : String
  board_id : String
  creation_time : String
  status : String
deriving DecidableEq, Repr

/-- Parsed payload of `Teams.create_team`: `data.get("name", "")`,
`data.get("description", "")`, `data.get("admin", "")`. -/
structure CreateTeamReq where
  name : String
  description : String
  admin : String
deriving DecidableEq, Repr

/-- `Teams.create_team` (`concrete/teams.py`): validates the fields, requires
the admin user to exist and the team name to be globally unique, then appends
the new team with `members = [admin]`.  Returns the new teams collection and
the created id. -/
def create_team (users : List UserRec) (teams : List Team) (req : CreateTeamReq)
    (newId now : String) : Except PyErr (List Team × String) :=
  let name := (pyStrip req.name)
  let description := (pyStrip req.description)
  let admin := (pyStrip req.admin)
  if name = "" then .error (.valueError "Team name is required")
  else if name.length > 64 then .error (.valueError "Team name must be <= 64 characters")
  else if description.length > 128 then .error (.valueError "Description must be <= 128 characters")
  else if admin = "" then .error (.valueError "Admin user ID is required")
  else if !(users.any (fun u => u.id == admin)) then
    .error (.valueError "Admin user does not exist")
  else if teams.any (fun t => t.name == name) then
    .error (.valueError "Team name must be unique")
  else
    .ok (teams ++ [{ id := newId, name := name, description := description,
                     admin := admin, members := [admin], creation_time := now }], newId)

/-- Parsed payload of `Teams.update_team`: `data.get("id")` plus the nested
`data.get("team", {})` fields, each defaulting to `""`. -/
structure UpdateTeamReq where
  id : Option String
  name : String
  description : String
  admin : String
deriving DecidableEq, Repr

/-- The in-place mutations `Teams.update_team` performs on `teams[team_index]`
once all validations passed: append the new admin to `members` when absent,
then overwrite `name` / `description` / `admin` for each supplied field. -/
def applyTeamUpdate (name description admin : String) (t : Team) : Team :=
  let t1 := if admin ≠ "" && !(t.members.contains admin) then
      { t with members := t.members ++ [admin] } else t
  let t2 := if name ≠ "" then { t1 with name := name } else t1
  let t3 := if description ≠ "" then { t2 with description := description } else t2
  if admin ≠ "" then { t3 with admin := admin } else t3

/-- `Teams.update_team` (`concrete/teams.py`). -/
def update_team (users : List UserRec) (teams : List Team) (req : UpdateTeamReq) :
    Except PyErr (List Team) :=
  match pyTruthy req.id with
  | none => .error (.valueError "Team ID is required")
  | some team_id =>
    let name := (pyStrip req.name)
    let description := (pyStrip req.description)
    let admin := (pyStrip req.admin)
    if name ≠ "" && name.length > 64 then
      .error (.valueError "Team name must be <= 64 characters")
    else if description ≠ "" && description.length > 128 then
      .error (.valueError "Description must be <= 128 characters")
    else match teams.find? (fun t => t.id == team_id) with
    | none => .error (.valueError "Team not found")
    | some _ =>
      if name ≠ "" && teams.any (fun t => t.name == name && t.id != team_id) then
        .error (.valueError "Team name must be unique")
      else if admin ≠ "" && !(users.any (fun u => u.id == admin)) then
        .error (.valueError "Admin user does not exist")
      else
        .ok (modifyFirst (fun t => t.id == team_id)
              (applyTeamUpdate name description admin) teams)

/-- Parsed payload of `Teams.add_users_to_team` / `remove_users_from_team`:
`data.get("id")` and `data.get("users", [])` (always a list here; the
`isinstance` guard of the source is subsumed by the type). -/
structure TeamUsersReq where
  id : Option String
  users : List String
deriving DecidableEq, Repr

/-- `Teams.add_users_to_team` (`concrete/teams.py`): every listed user must
exist (the source loop raises on the first missing one), the team must exist,
and the deduplicated union of current members and the listed users must not
exceed 50, else `ValueError`; on success members become that union. -/
def add_users_to_team (users : List UserRec) (teams : List Team) (req : TeamUsersReq) :
    Except PyErr (List Team) :=
  match pyTruthy req.id with
  | none => .error (.valueError "Team ID is required")
  | some team_id =>
    match req.users.find? (fun uid => !(users.any (fun u => u.id == uid))) with
    | some uid => .error (.valueError ("User " ++ uid ++ " does not exist"))
    | none =>
      match teams.find? (fun t => t.id == team_id) with
      | none => .error (.valueError "Team not found")
      | some t =>
        let new_members := (t.members ++ req.users).dedup
        if new_members.length > 50 then
          .error (.valueError "Cannot add users: team would exceed 50 member limit")
        else
          .ok (modifyFirst (fun x => x.id == team_id)
                (fun x => { x with members := new_members }) teams)

/-- `Teams.remove_users_from_team` (`concrete/teams.py`): the team must exist;
the admin id must not appear in the removal list; on success members become
the set difference (modelled as filter plus dedup). -/
def remove_users_from_team (teams : List Team) (req : TeamUsersReq) :
    Except PyErr (List Team) :=
  match pyTruthy req.id with
  | none => .error (.valueError "Team ID is required")
  | some team_id =>
    match teams.find? (fun t => t.id == team_id) with
    | none => .error (.valueError "Team not found")
    | some t =>
      if req.users.contains t.admin then
        .error (.valueError "Cannot remove team admin from team")
      else
        .ok (modifyFirst (fun x => x.id == team_id)
              (fun x => { x with
                members := (x.members.filter (fun m => !(req.users.contains m))).dedup })
              teams)

/-- Parsed payload of `ProjectBoard.create_board`: `data.get("name", "")`,
`data.get("description", "")`, `data.get("team_id", "")`,
`data.get("creation_time")`. -/
structure CreateBoardReq where
  name : String
  description : String
  team_id : String
  creation_time : Option String
deriving DecidableEq, Repr

/-- `ProjectBoard.create_board` (`concrete/board.py`): validates the fields,
requires the team to exist and the board name to be unique within that team
(only boards with the same `team_id` are compared), then appends the new board
with `status = "OPEN"` and `end_time = None`. -/
def create_board (teams : List Team) (boards : List Board) (req : CreateBoardReq)
    (newId now : String) : Except PyErr (List Board × String) :=
  let name := (pyStrip req.name)
  let description := (pyStrip req.description)
  let team_id := (pyStrip req.team_id)
  if name = "" then .error (.valueError "Board name is required")
  else if name.length > 64 then .error (.valueError "Board name must be <= 64 characters")
  else if description ≠ "" ∧ description.length > 128 then
    .error (.valueError "Description must be <= 128 characters")
  else if team_id = "" then .error (.valueError "Team ID is required")
  else
    let creation_time := (pyTruthy req.creation_time).getD now
    if !(teams.any (fun t => t.id == team_id)) then
      .error (.valueError "Team ID does not exist")
    else if boards.any (fun b => b.team_id == team_id && b.name == name) then
      .error (.valueError "Board name must be unique within the team")
    else
      .ok (boards ++ [{ id := newId, name := name, description := description,
                        team_id := team_id, creation_time := creation_time,
                        status := "OPEN", end_time := none }], newId)

/-- Parsed payload of operations taking just `data.get("id")`. -/
structure IdReq where
  id : Option String
deriving DecidableEq, Repr

/-- `ProjectBoard.close_board` (`concrete/board.py`): the board must exist and
must not already be CLOSED; every task whose `board_id` is the board's id must
have status COMPLETE (a board with no tasks passes vacuously); on success the
board's status becomes CLOSED and `end_time` is stamped. -/
def close_board (boards : List Board) (tasks : List TaskRec) (req : IdReq)
    (now : String) : Except PyErr (List Board) :=
  match pyTruthy req.id with
  | none => .error (.valueError "Board ID is required")
  | some board_id =>
    match boards.find? (fun b => b.id == board_id) with
    | none => .error (.valueError "Board not found")
    | some b =>
      if b.status = "CLOSED" then .error (.valueError "Board is already closed")
      else
        let board_tasks := tasks.filter (fun t => t.board_id == board_id)
        let incomplete_tasks := board_tasks.filter (fun t => t.status != "COMPLETE")
        if !incomplete_tasks.isEmpty then
          .error (.valueError "Cannot close board: not all tasks are complete")
        else
          .ok (modifyFirst (fun x => x.id == board_id)
                (fun x => { x with status := "CLOSED", end_time := some now }) boards)

/-- Parsed payload of `ProjectBoard.add_task`: `data.get("title", "")`,
`data.get("description", "")`, `data.get("user_id", "")`,
`data.get("creation_time")`, `data.get("board_id")`. -/
structure AddTaskReq where
  title : String
  description : String
  user_id : String
  creation_time : Option String
  board_id : Option String
deriving DecidableEq, Repr

/-- `ProjectBoard.add_task` (`concrete/board.py`): validates title, description
and that `user_id` is non-empty (note: the source performs no lookup of
`user_id` against the users collection — the function never loads
`db/users.json`); resolves the target board (explicit `board_id` must exist
and be OPEN, otherwise the latest OPEN board is used); requires the title to
be unique within the resolved board; appends the new task with status OPEN. -/
def add_task (boards : List Board) (tasks : List TaskRec) (req : AddTaskReq)
    (newId now : String) : Except PyErr (List TaskRec × String) :=
  let title := (pyStrip req.title)
  let description := (pyStrip req.description)
  let user_id := (pyStrip req.user_id)
  if title = "" then .error (.valueError "Task title is required")
  else if title.length > 64 then .error (.valueError "Task title must be <= 64 characters")
  else if description ≠ "" ∧ description.length > 128 then
    .error (.valueError "Description must be <= 128 characters")
  else if user_id = "" then .error (.valueError "User ID is required")
  else
    let creation_time := (pyTruthy req.creation_time).getD now
    let boardRes : Except PyErr Board :=
      match pyTruthy req.board_id with
      | some bid =>
        match boards.find? (fun b => b.id == bid) with
        | none => .error (.valueError "Board not found")
        | some b =>
          if b.status != "OPEN" then .error (.valueError "Can only add tasks to OPEN boards")
          else .ok b
      | none =>
        match (boards.filter (fun b => b.status == "OPEN")).getLast? with
        | none => .error (.valueError "No open boards available to add a task")
        | some b => .ok b
    match boardRes with
    | .error e => .error e
    | .ok board =>
      let board_tasks := tasks.filter (fun t => t.board_id == board.id)
      if board_tasks.any (fun t => t.title == title) then
        .error (.valueError "Task title must be unique within the board")
      else
        .ok (tasks ++ [{ id := newId, title := title, description := description,
                         user_id := user_id, board_id := board.id,
                         creation_time := creation_time, status := "OPEN" }], newId)

/-- Parsed payload of `ProjectBoard.update_task_status`: `data.get("id")` and
`data.get("status")`. -/
structure UpdateTaskStatusReq where
  id : Option String
  status : Option String
deriving DecidableEq, Repr

/-- `ProjectBoard.update_task_status` (`concrete/board.py`): the status must be
one of OPEN, IN_PROGRESS, COMPLETE; the task must exist; the task's status is
then overwritten unconditionally — the previous status is never inspected. -/
def update_task_status (tasks : List TaskRec) (req : UpdateTaskStatusReq) :
    Except PyErr (List TaskRec) :=
  match pyTruthy req.id with
  | none => .error (.valueError "Task ID is required")
  | some task_id =>
    match req.status with
    | none => .error (.valueError "Status must be one of: OPEN, IN_PROGRESS, COMPLETE")
    | some s =>
      if s = "OPEN" ∨ s = "IN_PROGRESS" ∨ s = "COMPLETE" then
        match tasks.find? (fun t => t.id == task_id) with
        | none => .error (.valueError "Task not found")
        | some _ =>
          .ok (modifyFirst (fun t => t.id == task_id) (fun t => { t with status := s }) tasks)
      else .error (.valueError "Status must be one of: OPEN, IN_PROGRESS, COMPLETE")

/-- Models CPython `uuid.UUID(s)` acceptance restricted to the canonical
hyphenated `8-4-4-4-12` hex form — the only spelling ever produced by
`uuid.uuid4()` and hence the only one occurring as a stored id in this
system.  (The CPython constructor additionally tolerates brace/urn wrappers
that never arise here.) -/
def isCanonicalUuid (s : String) : Bool :=
  let cs := s.toList
  let isHex : Char → Bool := fun c =>
    c.isDigit || (('a' ≤ c) && (c ≤ 'f')) || (('A' ≤ c) && (c ≤ 'F'))
  cs.length == 36 &&
    (List.range 36).all (fun i =>
      let c := cs.getD i ' '
      if i == 8 || i == 13 || i == 18 || i == 23 then c == '-' else isHex c)

/-- `Validator.validate_required_field` (`utils/validators.py`): the stripped
value must be non-empty, else `ValidationError`. -/
def validate_required_field (value : String) (field_name : String) :
    Except PyErr String :=
  let str_value := pyStrip value
  if str_value = "" then .error (.validationError (field_name ++ " cannot be empty"))
  else .ok str_value

/-- `Validator.validate_uuid` (`utils/validators.py`): requires a non-empty
stripped value that parses as a UUID, else `ValidationError`. -/
def validate_uuid (uuid_str : String) (field_name : String) : Except PyErr String :=
  match validate_required_field uuid_str field_name with
  | .error e => .error e
  | .ok s =>
    if isCanonicalUuid s then .ok s
    else .error (.validationError (field_name ++ " must be a valid UUID"))

/-- `Validator.validate_display_name` with `is_update=True`
(`utils/validators.py`): a falsy value passes through as `""`; otherwise the
stripped value must be at most 128 characters (the update-path limit). -/
def validate_display_name_upd (display_name : String) : Except PyErr String :=
  if display_name = "" then .ok ""
  else
    let d := pyStrip display_name
    if d.length > 128 then
      .error (.validationError "Display name must be <= 128 characters")
    else .ok d

/-- Parsed payload of `User.update_user`: `data.get("id", "")` plus the nested
`data.get("user", {})` fields `name` and `display_name`, defaulting to `""`. -/
structure UpdateUserReq where
  id : String
  name : String
  display_name : String
deriving DecidableEq, Repr

/-- `User.update_user` (`concrete/user.py`): validates the id as a UUID and
the display name (update path, ≤128); the user must exist
(`ResourceNotFoundError` otherwise); a supplied name that is non-empty after
stripping and differs from the stored name is rejected with
`ValidationError "User name cannot be updated"`; otherwise only the display
name is overwritten (when truthy). -/
def update_user (users : List UserRec) (req : UpdateUserReq) :
    Except PyErr (List UserRec) :=
  match validate_uuid req.id "User ID" with
  | .error e => .error e
  | .ok user_id =>
    let name := (pyStrip req.name)
    match validate_display_name_upd req.display_name with
    | .error e => .error e
    | .ok display_name =>
      match users.find? (fun u => u.id == user_id) with
      | none => .error (.resourceNotFoundError "User not found")
      | some u =>
        if name ≠ "" ∧ name ≠ u.name then
          .error (.validationError "User name cannot be updated")
        else
          .ok (modifyFirst (fun v => v.id == user_id)
                (fun v => if display_name ≠ "" then { v with display_name := display_name }
                          else v) users)

/-! ### General lemmas about the helper functions -/

theorem mem_modifyFirst_find {α : Type} {p : α → Bool} {f : α → α} {l : List α} {x : α}
    (hx : x ∈ modifyFirst p f l) :
    x ∈ l ∨ ∃ y, l.find? p = some y ∧ x = f y := by
  induction l with
  | nil => simp [modifyFirst] at hx
  | cons a as ih =>
    by_cases h : p a
    · rw [modifyFirst, if_pos h] at hx
      rcases List.mem_cons.mp hx with h1 | h1
      · exact Or.inr ⟨a, by simp [List.find?_cons_of_pos _ h], h1⟩
      · exact Or.inl (List.mem_cons_of_mem _ h1)
    · rw [modifyFirst, if_neg h] at hx
      rcases List.mem_cons.mp hx with h1 | h1
      · exact Or.inl (h1 ▸ List.mem_cons_self _ _)
      · rcases ih h1 with h2 | ⟨y, hy, hxy⟩
        · exact Or.inl (List.mem_cons_of_mem _ h2)
        · refine Or.inr ⟨y, ?_, hxy⟩
          rw [List.find?_cons_of_neg _ h]
          exact hy

theorem find?_modifyFirst {α : Type} (p : α → Bool) (f : α → α)
    (hf : ∀ x, p (f x) = p x) (l : List α) :
    (modifyFirst p f l).find? p = (l.find? p).map f := by
  induction l with
  | nil => simp [modifyFirst]
  | cons a as ih =>
    by_cases h : p a
    · rw [modifyFirst, if_pos h, List.find?_cons_of_pos _ ((hf a).trans h),
        List.find?_cons_of_pos _ h, Option.map_some']
    · rw [modifyFirst, if_neg h, List.find?_cons_of_neg _ h,
        List.find?_cons_of_neg _ h]
      exact ih


theorem create_team_ok_shape {users : List UserRec} {teams : List Team}
    {req : CreateTeamReq} {newId now : String} {teams' : List Team} {rid : String}
    (h : create_team users teams req newId now = .ok (teams', rid)) :
    teams' = teams ++ [{ id := newId, name := (pyStrip req.name),
                         description := (pyStrip req.description), admin := (pyStrip req.admin),
                         members := [(pyStrip req.admin)], creation_time := now }] ∧
      rid = newId := by
  simp only [create_team] at h
  repeat' split at h
  all_goals try (simp only [reduceCtorEq] at h)
  have h2 := Prod.ext_iff.mp (Except.ok.inj h)
  exact ⟨h2.1.symm, h2.2.symm⟩

theorem update_team_ok_shape {users : List UserRec} {teams : List Team}
    {req : UpdateTeamReq} {teams' : List Team}
    (h : update_team users teams req = .ok teams') :
    ∃ team_id, teams' = modifyFirst (fun t => t.id == team_id)
      (applyTeamUpdate (pyStrip req.name) (pyStrip req.description) (pyStrip req.admin)) teams := by
  simp only [update_team] at h
  repeat' split at h
  all_goals try (simp only [reduceCtorEq] at h)
  exact ⟨_, (Except.ok.inj h).symm⟩

theorem add_users_ok_shape {users : List UserRec} {teams : List Team}
    {req : TeamUsersReq} {teams' : List Team}
    (h : add_users_to_team users teams req = .ok teams') :
    ∃ team_id t, teams.find? (fun x => x.id == team_id) = some t ∧
      teams' = modifyFirst (fun x => x.id == team_id)
        (fun x => { x with members := (t.members ++ req.users).dedup }) teams := by
  simp only [add_users_to_team] at h
  repeat' split at h
  all_goals try (simp only [reduceCtorEq] at h)
  exact ⟨_, _, by assumption, (Except.ok.inj h).symm⟩

theorem remove_users_ok_shape {teams : List Team} {req : TeamUsersReq}
    {teams' : List Team}
    (h : remove_users_from_team teams req = .ok teams') :
    ∃ team_id t, teams.find? (fun x => x.id == team_id) = some t ∧
      req.users.contains t.admin = false ∧
      teams' = modifyFirst (fun x => x.id == team_id)
        (fun x => { x with
          members := (x.members.filter (fun m => !(req.users.contains m))).dedup })
        teams := by
  simp only [remove_users_from_team] at h
  repeat' split at h
  all_goals try (simp only [reduceCtorEq] at h)
  exact ⟨_, _, by assumption, Bool.of_not_eq_true (by assumption), (Except.ok.inj h).symm⟩

theorem applyTeamUpdate_admin_mem {name description admin : String} {t : Team}
    (h : t.admin ∈ t.members) :
    (applyTeamUpdate name description admin t).admin ∈
      (applyTeamUpdate name description admin t).members := by
  unfold applyTeamUpdate
  repeat' split
  all_goals simp_all

theorem applyTeamUpdate_nodup {name description admin : String} {t : Team}
    (h : t.members.Nodup) :
    (applyTeamUpdate name description admin t).members.Nodup := by
  unfold applyTeamUpdate
  repeat' split
  all_goals simp_all [List.nodup_append]

/-- Claim C3: for every team and every successful operation among CreateTeam,
UpdateTeam, AddUsersToTeam and RemoveUsersFromTeam, the team's admin id is a
member of the team's members set afterwards — `admin ∈ members` is preserved
by every team operation (and established by creation). -/
theorem teams_admin_always_member
    (users : List UserRec) (teams : List Team)
    (hpre : ∀ t ∈ teams, t.admin ∈ t.members) :
    (∀ req newId now teams' rid,
        create_team users teams req newId now = .ok (teams', rid) →
        ∀ t ∈ teams', t.admin ∈ t.members) ∧
    (∀ req teams', update_team users teams req = .ok teams' →
        ∀ t ∈ teams', t.admin ∈ t.members) ∧
    (∀ req teams', add_users_to_team users teams req = .ok teams' →
        ∀ t ∈ teams', t.admin ∈ t.members) ∧
    (∀ req teams', remove_users_from_team teams req = .ok teams' →
        ∀ t ∈ teams', t.admin ∈ t.members) := by
  refine ⟨?_, ?_, ?_, ?_⟩
  · intro req newId now teams' rid h t ht
    obtain ⟨rfl, rfl⟩ := create_team_ok_shape h
    rcases List.mem_append.mp ht with h1 | h1
    · exact hpre t h1
    · simp only [List.mem_singleton] at h1
      subst h1
      simp
  · intro req teams' h t ht
    obtain ⟨tid, rfl⟩ := update_team_ok_shape h
    rcases mem_modifyFirst_find ht with h1 | ⟨y, hy, rfl⟩
    · exact hpre t h1
    · exact applyTeamUpdate_admin_mem (hpre y (List.mem_of_find?_eq_some hy))
  · intro req teams' h t ht
    obtain ⟨tid, t0, hfind, rfl⟩ := add_users_ok_shape h
    rcases mem_modifyFirst_find ht with h1 | ⟨y, hy, rfl⟩
    · exact hpre t h1
    · have hyt : y = t0 := by
        rw [hfind] at hy
        exact (Option.some.inj hy).symm
      subst hyt
      have hadm := hpre y (List.mem_of_find?_eq_some hfind)
      simp [List.mem_dedup, List.mem_append]
      exact Or.inl hadm
  · intro req teams' h t ht
    obtain ⟨tid, t0, hfind, hnadm, rfl⟩ := remove_users_ok_shape h
    rcases mem_modifyFirst_find ht with h1 | ⟨y, hy, rfl⟩
    · exact hpre t h1
    · have hyt : y = t0 := by
        rw [hfind] at hy
        exact (Option.some.inj hy).symm
      subst hyt
      have hadm := hpre y (List.mem_of_find?_eq_some hfind)
      simp [List.mem_dedup, List.mem_filter]
      exact ⟨hadm, by simpa using hnadm⟩

/-- Witness for C3 at a concrete one-team state. -/
theorem teams_admin_always_member_witness :
    (∀ t ∈ [Team.mk "t1" "alpha" "" "u1" ["u1"] "t0"], t.admin ∈ t.members) ∧
    ((∀ req newId now teams' rid,
        create_team [UserRec.mk "u1" "alice" "alice" "t0"]
          [Team.mk "t1" "alpha" "" "u1" ["u1"] "t0"] req newId now = .ok (teams', rid) →
        ∀ t ∈ teams', t.admin ∈ t.members) ∧
     (∀ req teams', update_team [UserRec.mk "u1" "alice" "alice" "t0"]
          [Team.mk "t1" "alpha" "" "u1" ["u1"] "t0"] req = .ok teams' →
        ∀ t ∈ teams', t.admin ∈ t.members) ∧
     (∀ req teams', add_users_to_team [UserRec.mk "u1" "alice" "alice" "t0"]
          [Team.mk "t1" "alpha" "" "u1" ["u1"] "t0"] req = .ok teams' →
        ∀ t ∈ teams', t.admin ∈ t.members) ∧
     (∀ req teams', remove_users_from_team
          [Team.mk "t1" "alpha" "" "u1" ["u1"] "t0"] req = .ok teams' →
        ∀ t ∈ teams', t.admin ∈ t.members)) :=
  ⟨by decide, teams_admin_always_member _ _ (by decide)⟩

/-- Claim C10: after every successful team operation (CreateTeam, UpdateTeam,
AddUsersToTeam, RemoveUsersFromTeam), the stored members list of every team
contains no duplicate user ids, even though it is persisted as a JSON list
rather than a set. -/
theorem teams_members_nodup
    (users : List UserRec) (teams : List Team)
    (hpre : ∀ t ∈ teams, t.members.Nodup) :
    (∀ req newId now teams' rid,
        create_team users teams req newId now = .ok (teams', rid) →
        ∀ t ∈ teams', t.members.Nodup) ∧
    (∀ req teams', update_team users teams req = .ok teams' →
        ∀ t ∈ teams', t.members.Nodup) ∧
    (∀ req teams', add_users_to_team users teams req = .ok teams' →
        ∀ t ∈ teams', t.members.Nodup) ∧
    (∀ req teams', remove_users_from_team teams req = .ok teams' →
        ∀ t ∈ teams', t.members.Nodup) := by
  refine ⟨?_, ?_, ?_, ?_⟩
  · intro req newId now teams' rid h t ht
    obtain ⟨rfl, rfl⟩ := create_team_ok_shape h
    rcases List.mem_append.mp ht with h1 | h1
    · exact hpre t h1
    · simp only [List.mem_singleton] at h1
      subst h1
      simp
  · intro req teams' h t ht
    obtain ⟨tid, rfl⟩ := update_team_ok_shape h
    rcases mem_modifyFirst_find ht with h1 | ⟨y, hy, rfl⟩
    · exact hpre t h1
    · exact applyTeamUpdate_nodup (hpre y (List.mem_of_find?_eq_some hy))
  · intro req teams' h t ht
    obtain ⟨tid, t0, hfind, rfl⟩ := add_users_ok_shape h
    rcases mem_modifyFirst_find ht with h1 | ⟨y, hy, rfl⟩
    · exact hpre t h1
    · exact List.nodup_dedup _
  · intro req teams' h t ht
    obtain ⟨tid, t0, hfind, hnadm, rfl⟩ := remove_users_ok_shape h
    rcases mem_modifyFirst_find ht with h1 | ⟨y, hy, rfl⟩
    · exact hpre t h1
    · exact List.nodup_dedup _

/-- Witness for C10 at a concrete one-team state. -/
theorem teams_members_nodup_witness :
    (∀ t ∈ [Team.mk "t1" "alpha" "" "u1" ["u1"] "t0"], t.members.Nodup) ∧
    ((∀ req newId now teams' rid,
        create_team [UserRec.mk "u1" "alice" "alice" "t0"]
          [Team.mk "t1" "alpha" "" "u1" ["u1"] "t0"] req newId now = .ok (teams', rid) →
        ∀ t ∈ teams', t.members.Nodup) ∧
     (∀ req teams', update_team [UserRec.mk "u1" "alice" "alice" "t0"]
          [Team.mk "t1" "alpha" "" "u1" ["u1"] "t0"] req = .ok teams' →
        ∀ t ∈ teams', t.members.Nodup) ∧
     (∀ req teams', add_users_to_team [UserRec.mk "u1" "alice" "alice" "t0"]
          [Team.mk "t1" "alpha" "" "u1" ["u1"] "t0"] req = .ok teams' →
        ∀ t ∈ teams', t.members.Nodup) ∧
     (∀ req teams', remove_users_from_team
          [Team.mk "t1" "alpha" "" "u1" ["u1"] "t0"] req = .ok teams' →
        ∀ t ∈ teams', t.members.Nodup)) :=
  ⟨by decide, teams_members_nodup _ _ (by decide)⟩

/-- Claim C5: an AddUsersToTeam call on an existing team, all listed users
existing, whose resulting deduplicated member set would exceed 50 members,
fails with the limit `ValueError` (the validation-kind failure of the spec's
taxonomy); the exception is raised before any save, so the stored membership
is unchanged (an `.error` result carries no successor state). -/
theorem add_users_over_limit_fails
    (users : List UserRec) (teams : List Team) (req : TeamUsersReq)
    (tid : String) (t : Team)
    (hid : pyTruthy req.id = some tid)
    (hexist : req.users.find? (fun uid => !(users.any (fun u => u.id == uid))) = none)
    (hteam : teams.find? (fun x => x.id == tid) = some t)
    (hover : 50 < ((t.members ++ req.users).dedup).length) :
    add_users_to_team users teams req =
      .error (.valueError "Cannot add users: team would exceed 50 member limit") := by
  simp only [add_users_to_team, hid, hexist, hteam]
  rw [if_pos hover]

/-- Witness for C5: a 51-member team plus one more existing user. -/
theorem add_users_over_limit_fails_witness :
    50 < ((((List.range 51).map (fun n => "u" ++ toString n)) ++ ["u51"]).dedup).length ∧
    add_users_to_team [UserRec.mk "u51" "bob" "bob" "t0"]
      [Team.mk "t1" "alpha" "" "u0" ((List.range 51).map (fun n => "u" ++ toString n)) "t0"]
      ⟨some "t1", ["u51"]⟩ =
      .error (.valueError "Cannot add users: team would exceed 50 member limit") :=
  ⟨by decide,
   add_users_over_limit_fails _ _ _ "t1"
     (Team.mk "t1" "alpha" "" "u0" ((List.range 51).map (fun n => "u" ++ toString n)) "t0")
     (by decide) (by decide) (by decide) (by decide)⟩


/-- Claim C4: for a board that exists and is not already CLOSED, CloseBoard
fails with the validation `ValueError` when some task of the board is not
COMPLETE, succeeds when the board has no tasks at all (vacuous truth), and on
any success the board's status becomes CLOSED with `end_time` stamped. -/
theorem close_board_spec
    (boards : List Board) (tasks : List TaskRec) (req : IdReq) (now : String)
    (bid : String) (b : Board)
    (hid : pyTruthy req.id = some bid)
    (hfind : boards.find? (fun x => x.id == bid) = some b)
    (hnotclosed : b.status ≠ "CLOSED") :
    ((∃ t ∈ tasks, t.board_id = bid ∧ t.status ≠ "COMPLETE") →
        close_board boards tasks req now =
          .error (.valueError "Cannot close board: not all tasks are complete")) ∧
    (tasks.filter (fun t => t.board_id == bid) = [] →
        close_board boards tasks req now =
          .ok (modifyFirst (fun x => x.id == bid)
            (fun x => { x with status := "CLOSED", end_time := some now }) boards)) ∧
    (∀ boards', close_board boards tasks req now = .ok boards' →
        boards'.find? (fun x => x.id == bid) =
          some { b with status := "CLOSED", end_time := some now }) := by
  refine ⟨?_, ?_, ?_⟩
  · rintro ⟨t, ht, htb, hts⟩
    simp only [close_board, hid, hfind]
    rw [if_neg hnotclosed]
    have hmem : t ∈ (tasks.filter (fun x => x.board_id == bid)).filter
        (fun x => x.status != "COMPLETE") := by
      simp [List.mem_filter, ht, htb, hts]
    have hne : ((tasks.filter (fun x => x.board_id == bid)).filter
        (fun x => x.status != "COMPLETE")).isEmpty = false := by
      rcases hl : (tasks.filter (fun x => x.board_id == bid)).filter
          (fun x => x.status != "COMPLETE") with _ | ⟨a, l⟩
      · rw [hl] at hmem
        cases hmem
      · rw [hl]
        rfl
    rw [hne]
    rfl
  · intro hempty
    simp only [close_board, hid, hfind]
    rw [if_neg hnotclosed, hempty]
    rfl
  · intro boards' h
    simp only [close_board, hid, hfind] at h
    rw [if_neg hnotclosed] at h
    by_cases hemp : ((tasks.filter (fun x => x.board_id == bid)).filter
        (fun x => x.status != "COMPLETE")).isEmpty = true
    · rw [hemp] at h
      simp only [Bool.not_true] at h
      rw [if_neg Bool.false_ne_true] at h
      have hb' := Except.ok.inj h
      subst hb'
      rw [find?_modifyFirst (fun x : Board => x.id == bid)
            (fun x : Board => { x with status := "CLOSED", end_time := some now })
            (fun x => rfl), hfind]
      rfl
    · rw [Bool.of_not_eq_true hemp] at h
      simp only [Bool.not_false, if_true] at h
      cases h

/-- Witness for C4: a board with one OPEN task. -/
theorem close_board_spec_witness :
    ((∃ t ∈ [TaskRec.mk "k1" "t1" "" "u1" "b1" "t0" "OPEN"],
        t.board_id = "b1" ∧ t.status ≠ "COMPLETE") →
      close_board [Board.mk "b1" "Sprint" "" "t1" "t0" "OPEN" none]
          [TaskRec.mk "k1" "t1" "" "u1" "b1" "t0" "OPEN"] ⟨some "b1"⟩ "t9" =
        .error (.valueError "Cannot close board: not all tasks are complete")) ∧
    (([TaskRec.mk "k1" "t1" "" "u1" "b1" "t0" "OPEN"].filter
        (fun t => t.board_id == "b1") = []) →
      close_board [Board.mk "b1" "Sprint" "" "t1" "t0" "OPEN" none]
          [TaskRec.mk "k1" "t1" "" "u1" "b1" "t0" "OPEN"] ⟨some "b1"⟩ "t9" =
        .ok (modifyFirst (fun x => x.id == "b1")
          (fun x => { x with status := "CLOSED", end_time := some "t9" })
          [Board.mk "b1" "Sprint" "" "t1" "t0" "OPEN" none])) ∧
    (∀ boards', close_board [Board.mk "b1" "Sprint" "" "t1" "t0" "OPEN" none]
          [TaskRec.mk "k1" "t1" "" "u1" "b1" "t0" "OPEN"] ⟨some "b1"⟩ "t9" = .ok boards' →
        boards'.find? (fun x => x.id == "b1") =
          some { Board.mk "b1" "Sprint" "" "t1" "t0" "OPEN" none with
                 status := "CLOSED", end_time := some "t9" }) :=
  close_board_spec _ _ _ "t9" "b1" (Board.mk "b1" "Sprint" "" "t1" "t0" "OPEN" none)
    (by decide) (by decide) (by decide)

/-- Claim C6: board-name uniqueness in CreateBoard is scoped per team — the
uniqueness scan only compares boards with the same `team_id`, so a duplicate
name inside the requested team fails while the same name under a different
team passes the scan and the call succeeds (other validations passing). -/
theorem create_board_name_unique_per_team
    (teams : List Team) (boards : List Board) (req : CreateBoardReq) (newId now : String)
    (hname : (pyStrip req.name) ≠ "")
    (hlen : ¬ (pyStrip req.name).length > 64)
    (hdesc : ¬ ((pyStrip req.description) ≠ "" ∧ (pyStrip req.description).length > 128))
    (htid : (pyStrip req.team_id) ≠ "")
    (hteam : teams.any (fun t => t.id == (pyStrip req.team_id)) = true) :
    ((boards.any (fun b => b.team_id == (pyStrip req.team_id) && b.name == (pyStrip req.name))
        = true) →
      create_board teams boards req newId now =
        .error (.valueError "Board name must be unique within the team")) ∧
    ((boards.any (fun b => b.team_id == (pyStrip req.team_id) && b.name == (pyStrip req.name))
        = false) →
      create_board teams boards req newId now =
        .ok (boards ++ [{ id := newId, name := (pyStrip req.name),
                          description := (pyStrip req.description),
                          team_id := (pyStrip req.team_id),
                          creation_time := (pyTruthy req.creation_time).getD now,
                          status := "OPEN", end_time := none }], newId)) := by
  constructor <;> intro hdup <;>
    simp only [create_board] <;>
    rw [if_neg hname, if_neg hlen, if_neg hdesc, if_neg htid, hteam] <;>
    simp only [Bool.not_true] <;>
    rw [if_neg Bool.false_ne_true, hdup]
  · rfl
  · rw [if_neg Bool.false_ne_true]

/-- Witness for C6: team2 may reuse the board name "Sprint" already used by
team1. -/
theorem create_board_name_unique_per_team_witness :
    (([Board.mk "b1" "Sprint" "" "team1" "t0" "OPEN" none].any
        (fun b => b.team_id == "team2" && b.name == "Sprint") = true) →
      create_board [Team.mk "team1" "alpha" "" "u1" ["u1"] "t0",
                    Team.mk "team2" "beta" "" "u1" ["u1"] "t0"]
          [Board.mk "b1" "Sprint" "" "team1" "t0" "OPEN" none]
          ⟨"Sprint", "", "team2", none⟩ "b2" "t5" =
        .error (.valueError "Board name must be unique within the team")) ∧
    (([Board.mk "b1" "Sprint" "" "team1" "t0" "OPEN" none].any
        (fun b => b.team_id == "team2" && b.name == "Sprint") = false) →
      create_board [Team.mk "team1" "alpha" "" "u1" ["u1"] "t0",
                    Team.mk "team2" "beta" "" "u1" ["u1"] "t0"]
          [Board.mk "b1" "Sprint" "" "team1" "t0" "OPEN" none]
          ⟨"Sprint", "", "team2", none⟩ "b2" "t5" =
        .ok ([Board.mk "b1" "Sprint" "" "team1" "t0" "OPEN" none] ++
               [{ id := "b2", name := "Sprint", description := "", team_id := "team2",
                  creation_time := (pyTruthy (none : Option String)).getD "t5",
                  status := "OPEN", end_time := none }], "b2")) :=
  create_board_name_unique_per_team
    [Team.mk "team1" "alpha" "" "u1" ["u1"] "t0", Team.mk "team2" "beta" "" "u1" ["u1"] "t0"]
    [Board.mk "b1" "Sprint" "" "team1" "t0" "OPEN" none]
    (CreateBoardReq.mk "Sprint" "" "team2" none) "b2" "t5"
    (by decide) (by decide) (by decide) (by decide) (by decide)

/-- Claim C7: for an existing task and a status value among OPEN, IN_PROGRESS,
COMPLETE, UpdateTaskStatus succeeds and overwrites the stored status with the
given value regardless of the previous status — no transition graph exists in
the code, so COMPLETE to OPEN is accepted like any other pair. -/
theorem update_task_status_overwrites
    (tasks : List TaskRec) (req : UpdateTaskStatusReq) (tid s : String) (tk : TaskRec)
    (hid : pyTruthy req.id = some tid)
    (hs : req.status = some s)
    (hvalid : s = "OPEN" ∨ s = "IN_PROGRESS" ∨ s = "COMPLETE")
    (hfind : tasks.find? (fun t => t.id == tid) = some tk) :
    update_task_status tasks req =
      .ok (modifyFirst (fun t => t.id == tid) (fun t => { t with status := s }) tasks) ∧
    (modifyFirst (fun t => t.id == tid) (fun t => { t with status := s }) tasks).find?
        (fun t => t.id == tid) = some { tk with status := s } := by
  constructor
  · simp only [update_task_status, hid, hs]
    rw [if_pos hvalid, hfind]
  · rw [find?_modifyFirst (fun t : TaskRec => t.id == tid)
        (fun t : TaskRec => { t with status := s }) (fun t => rfl), hfind]
    rfl

/-- Witness for C7: a COMPLETE task is reset to OPEN. -/
theorem update_task_status_overwrites_witness :
    update_task_status [TaskRec.mk "k1" "t1" "" "u1" "b1" "t0" "COMPLETE"]
        ⟨some "k1", some "OPEN"⟩ =
      .ok (modifyFirst (fun t => t.id == "k1") (fun t => { t with status := "OPEN" })
        [TaskRec.mk "k1" "t1" "" "u1" "b1" "t0" "COMPLETE"]) ∧
    (modifyFirst (fun t => t.id == "k1") (fun t => { t with status := "OPEN" })
        [TaskRec.mk "k1" "t1" "" "u1" "b1" "t0" "COMPLETE"]).find?
        (fun t => t.id == "k1") =
      some { TaskRec.mk "k1" "t1" "" "u1" "b1" "t0" "COMPLETE" with status := "OPEN" } :=
  update_task_status_overwrites _ _ "k1" "OPEN"
    (TaskRec.mk "k1" "t1" "" "u1" "b1" "t0" "COMPLETE")
    (by decide) (by decide) (by decide) (by decide)

/-- Claim C9: an AddTask call whose explicit `board_id` resolves to an existing
board with status CLOSED always fails with a validation `ValueError` (whichever
check fires first), and since every failure is an exception raised before the
tasks collection is saved, no task is created. -/
theorem add_task_closed_board_fails
    (boards : List Board) (tasks : List TaskRec) (req : AddTaskReq) (newId now : String)
    (bid : String) (b : Board)
    (hbid : pyTruthy req.board_id = some bid)
    (hfind : boards.find? (fun x => x.id == bid) = some b)
    (hclosed : b.status = "CLOSED") :
    ∃ msg, add_task boards tasks req newId now = .error (.valueError msg) := by
  simp only [add_task, hbid, hfind, hclosed]
  repeat' split
  all_goals try exact ⟨_, rfl⟩
  all_goals try simp_all
  all_goals (rename_i heq; exact ⟨_, heq.symm⟩)

/-- Witness for C9: adding a task to a CLOSED board. -/
theorem add_task_closed_board_fails_witness :
    ∃ msg, add_task [Board.mk "b1" "Sprint" "" "t1" "t0" "CLOSED" (some "t3")] []
        ⟨"Fix bug", "", "u1", none, some "b1"⟩ "k9" "t9" =
      .error (.valueError msg) :=
  add_task_closed_board_fails _ _ _ "k9" "t9" "b1"
    (Board.mk "b1" "Sprint" "" "t1" "t0" "CLOSED" (some "t3"))
    (by decide) (by decide) (by decide)

/-- Claim C8: for an existing user, UpdateUser rejects any request whose
supplied name is non-empty after stripping and differs from the stored name,
raising a `ValidationError` (name is immutable); every such rejection is an
exception raised before `_save_users`, so the stored record is unchanged. -/
theorem update_user_name_immutable
    (users : List UserRec) (req : UpdateUserReq) (uid : String) (u : UserRec)
    (hvu : validate_uuid req.id "User ID" = .ok uid)
    (hfind : users.find? (fun v => v.id == uid) = some u)
    (hname : pyStrip req.name ≠ "")
    (hdiff : pyStrip req.name ≠ u.name) :
    ∃ msg, update_user users req = .error (.validationError msg) := by
  by_cases h1 : req.display_name = ""
  · simp only [update_user, hvu, validate_display_name_upd, if_pos h1, hfind]
    rw [if_pos ⟨hname, hdiff⟩]
    exact ⟨_, rfl⟩
  · by_cases h2 : (pyStrip req.display_name).length > 128
    · simp only [update_user, hvu, validate_display_name_upd, if_neg h1]
      rw [if_pos h2]
      exact ⟨_, rfl⟩
    · simp only [update_user, hvu, validate_display_name_upd, if_neg h1]
      rw [if_neg h2]
      simp only [hfind]
      rw [if_pos ⟨hname, hdiff⟩]
      exact ⟨_, rfl⟩

/-- Witness for C8: renaming user "alice" to "bob" is rejected. -/
theorem update_user_name_immutable_witness :
    ∃ msg, update_user
        [UserRec.mk "11111111-2222-3333-4444-555555555555" "alice" "alice" "t0"]
        ⟨"11111111-2222-3333-4444-555555555555", "bob", ""⟩ =
      .error (.validationError msg) :=
  update_user_name_immutable _ _ "11111111-2222-3333-4444-555555555555"
    (UserRec.mk "11111111-2222-3333-4444-555555555555" "alice" "alice" "t0")
    rfl rfl (by decide) (by decide)

/-- Claim C2 counterexample: creating a team whose name duplicates an existing
team's name fails with the builtin `ValueError "Team name must be unique"` —
`concrete/teams.py` never raises `DuplicateResourceError`. -/
theorem create_team_duplicate_not_dre_counterexample :
    create_team [UserRec.mk "u1" "alice" "alice" "t0"]
        [Team.mk "team1" "alpha" "" "u1" ["u1"] "t0"]
        ⟨"alpha", "", "u1"⟩ "team2" "t1" =
      .error (.valueError "Team name must be unique") ∧
    isDuplicateResourceError (create_team [UserRec.mk "u1" "alice" "alice" "t0"]
        [Team.mk "team1" "alpha" "" "u1" ["u1"] "t0"]
        ⟨"alpha", "", "u1"⟩ "team2" "t1") = false := by
  constructor <;> rfl

/-- Claim C2 amended: with valid inputs and an existing admin user, CreateTeam
fails on a duplicate name with the builtin `ValueError "Team name must be
unique"` (a validation-kind failure, not `DuplicateResourceError`), and on a
fresh name succeeds with the team's members initialised to exactly `[admin]`. -/
theorem create_team_unique_name_and_members
    (users : List UserRec) (teams : List Team) (req : CreateTeamReq) (newId now : String)
    (hname : pyStrip req.name ≠ "")
    (hlen : ¬ (pyStrip req.name).length > 64)
    (hdesc : ¬ (pyStrip req.description).length > 128)
    (hadmin : pyStrip req.admin ≠ "")
    (hexists : users.any (fun u => u.id == pyStrip req.admin) = true) :
    ((teams.any (fun t => t.name == pyStrip req.name) = true) →
        create_team users teams req newId now =
          .error (.valueError "Team name must be unique")) ∧
    ((teams.any (fun t => t.name == pyStrip req.name) = false) →
        create_team users teams req newId now =
          .ok (teams ++ [{ id := newId, name := pyStrip req.name,
                           description := pyStrip req.description,
                           admin := pyStrip req.admin,
                           members := [pyStrip req.admin], creation_time := now }],
               newId)) := by
  constructor <;> intro hdup <;>
    simp only [create_team] <;>
    rw [if_neg hname, if_neg hlen, if_neg hdesc, if_neg hadmin, hexists] <;>
    simp only [Bool.not_true] <;>
    rw [if_neg Bool.false_ne_true, hdup]
  · rfl
  · rw [if_neg Bool.false_ne_true]

/-- Witness for C2's amended claim: a fresh team name succeeds and the members
list is exactly the admin. -/
theorem create_team_unique_name_and_members_witness :
    (([Team.mk "team1" "alpha" "" "u1" ["u1"] "t0"].any
        (fun t => t.name == pyStrip "beta") = true) →
      create_team [UserRec.mk "u1" "alice" "alice" "t0"]
          [Team.mk "team1" "alpha" "" "u1" ["u1"] "t0"]
          ⟨"beta", "", "u1"⟩ "team2" "t1" =
        .error (.valueError "Team name must be unique")) ∧
    (([Team.mk "team1" "alpha" "" "u1" ["u1"] "t0"].any
        (fun t => t.name == pyStrip "beta") = false) →
      create_team [UserRec.mk "u1" "alice" "alice" "t0"]
          [Team.mk "team1" "alpha" "" "u1" ["u1"] "t0"]
          ⟨"beta", "", "u1"⟩ "team2" "t1" =
        .ok ([Team.mk "team1" "alpha" "" "u1" ["u1"] "t0"] ++
               [{ id := "team2", name := pyStrip "beta", description := pyStrip "",
                  admin := pyStrip "u1", members := [pyStrip "u1"],
                  creation_time := "t1" }], "team2")) :=
  create_team_unique_name_and_members
    [UserRec.mk "u1" "alice" "alice" "t0"] [Team.mk "team1" "alpha" "" "u1" ["u1"] "t0"]
    (CreateTeamReq.mk "beta" "" "u1") "team2" "t1"
    (by decide) (by decide) (by decide) (by decide) (by decide)

/-- Claim C1 counterexample: AddTask succeeds although its `user_id`
("ghost-user") resolves to no user in the (here empty) users collection —
`add_task` never loads `db/users.json`, so no user lookup can fail. -/
theorem add_task_ghost_user_counterexample :
    (([] : List UserRec).any (fun u => u.id == "ghost-user")) = false ∧
    add_task [Board.mk "b1" "Sprint" "" "team1" "t0" "OPEN" none] []
        ⟨"Fix bug", "", "ghost-user", none, some "b1"⟩ "task1" "t1" =
      .ok ([TaskRec.mk "task1" "Fix bug" "" "ghost-user" "b1" "t1" "OPEN"], "task1") := by
  constructor <;> rfl

/-- Claim C1 amended: AddTask validates title and description and requires a
non-empty `user_id`, but performs no existence check of `user_id` against the
users collection (the function does not read it); with an OPEN target board
and a fresh title, the call succeeds for every non-empty `user_id`. -/
theorem add_task_no_user_existence_check
    (boards : List Board) (tasks : List TaskRec) (req : AddTaskReq) (newId now : String)
    (bid : String) (b : Board)
    (htitle : pyStrip req.title ≠ "")
    (hlen : ¬ (pyStrip req.title).length > 64)
    (hdesc : ¬ (pyStrip req.description ≠ "" ∧ (pyStrip req.description).length > 128))
    (huser : pyStrip req.user_id ≠ "")
    (hbid : pyTruthy req.board_id = some bid)
    (hfind : boards.find? (fun x => x.id == bid) = some b)
    (hopen : b.status = "OPEN")
    (huniq : (tasks.filter (fun t => t.board_id == b.id)).any
        (fun t => t.title == pyStrip req.title) = false) :
    add_task boards tasks req newId now =
      .ok (tasks ++ [{ id := newId, title := pyStrip req.title,
                       description := pyStrip req.description,
                       user_id := pyStrip req.user_id, board_id := b.id,
                       creation_time := (pyTruthy req.creation_time).getD now,
                       status := "OPEN" }], newId) := by
  simp only [add_task, hbid, hfind]
  rw [if_neg htitle, if_neg hlen, if_neg hdesc, if_neg huser, hopen]
  simp only [bne_self_eq_false]
  rw [if_neg Bool.false_ne_true]
  split
  · rename_i e heq
    cases heq
  · rename_i board heq
    injection heq with hb
    subst hb
    rw [huniq, if_neg Bool.false_ne_true]

/-- Witness for C1's amended claim: the "ghost-user" call goes through. -/
theorem add_task_no_user_existence_check_witness :
    add_task [Board.mk "b1" "Sprint" "" "team1" "t0" "OPEN" none] []
        ⟨"Ship it", "", "nobody-here", none, some "b1"⟩ "task7" "t7" =
      .ok ([] ++ [{ id := "task7", title := pyStrip "Ship it",
                    description := pyStrip "", user_id := pyStrip "nobody-here",
                    board_id := "b1",
                    creation_time := (pyTruthy (none : Option String)).getD "t7",
                    status := "OPEN" }], "task7") :=
  add_task_no_user_existence_check
    [Board.mk "b1" "Sprint" "" "team1" "t0" "OPEN" none] []
    (AddTaskReq.mk "Ship it" "" "nobody-here" none (some "b1")) "task7" "t7" "b1"
    (Board.mk "b1" "Sprint" "" "team1" "t0" "OPEN" none)
    (by decide) (by decide) (by decide) (by decide) (by decide) (by decide)
    (by decide) (by decide)
